import Mathlib

/-
Verification of the CivicSync client (src/app.js): a shallow embedding of the
sync-and-mutation core (issue feed sorting, submit, upvote, delete, logout,
profile ledger) together with proofs of the specified properties.

Conventions of the embedding:
  * JS objects delivered by the store may lack fields, so record fields that
    the code guards with `|| 0`, `?.` or `|| []` are modelled as `Option`.
  * Timestamps are the integer milliseconds produced by `toMillis()`.
  * Each event handler is modelled as the list of observable steps it performs
    (local state writes and remote calls, in program order), parameterised by
    the success or failure of each remote call; `runEvents` folds the local
    writes into the component state.
  * `Array.prototype.sort` with a consistent comparator is, per ECMA-262,
    a stable sort consistent with the comparator; it is modelled by
    `List.insertionSort` over the relation "comparator result is non-positive",
    which is exactly the stable sort for that relation.
-/

namespace CivicSync

/-- Issue record as it appears in the local feed: the store document id plus
the document data fields used anywhere in the source (`app.js`). -/
structure Issue where
  id : String
  title : String := ""
  description : String := ""
  location : String := ""
  status : Option String := none
  upvotes : Option Int := none
  createdAt : Option Int := none
  reporterId : Option String := none
  imageUrl : Option String := none
  photoUrl : Option String := none
  videoUrl : Option String := none
  audioUrl : Option String := none
  deriving DecidableEq

/-- Comparator of the issues onSnapshot handler (app.js lines 78-82):
upvote difference `(b.upvotes || 0) - (a.upvotes || 0)` when non-zero,
otherwise `(b.createdAt?.toMillis() || 0) - (a.createdAt?.toMillis() || 0)`. -/
def compareIssues (a b : Issue) : Int :=
  if (b.upvotes.getD 0) - (a.upvotes.getD 0) ≠ 0 then
    (b.upvotes.getD 0) - (a.upvotes.getD 0)
  else
    (b.createdAt.getD 0) - (a.createdAt.getD 0)

/-- Sort key of an issue: the defaulted upvote count and creation time. -/
def issueKey (i : Issue) : Int × Int := (i.upvotes.getD 0, i.createdAt.getD 0)

/-- Relation "the comparator allows a to stay before b" (result non-positive). -/
def feedRel (a b : Issue) : Prop := compareIssues a b ≤ 0

/-- Descending lexicographic order on (upvotes, createdAt) with missing fields
defaulted to 0: the ordering the spec states for the feed. -/
def feedOrder (a b : Issue) : Prop :=
  b.upvotes.getD 0 < a.upvotes.getD 0 ∨
    (b.upvotes.getD 0 = a.upvotes.getD 0 ∧ b.createdAt.getD 0 ≤ a.createdAt.getD 0)

lemma compareIssues_nonpos_iff (a b : Issue) :
    compareIssues a b ≤ 0 ↔ feedOrder a b := by
  unfold compareIssues feedOrder
  split <;> omega

lemma feedRel_iff (a b : Issue) : feedRel a b ↔ feedOrder a b :=
  compareIssues_nonpos_iff a b

lemma feedRel_of_key_eq {a b : Issue} (h : issueKey a = issueKey b) : feedRel a b := by
  have h1 : a.upvotes.getD 0 = b.upvotes.getD 0 := congrArg Prod.fst h
  have h2 : a.createdAt.getD 0 = b.createdAt.getD 0 := congrArg Prod.snd h
  rw [feedRel_iff]
  unfold feedOrder
  omega

instance : DecidableRel feedRel := fun a b =>
  inferInstanceAs (Decidable (compareIssues a b ≤ 0))

instance : IsTotal Issue feedRel :=
  ⟨fun a b => by
    rw [feedRel_iff, feedRel_iff]
    unfold feedOrder
    omega⟩

instance : IsTrans Issue feedRel :=
  ⟨fun a b c hab hbc => by
    rw [feedRel_iff] at hab hbc ⊢
    unfold feedOrder at hab hbc ⊢
    omega⟩

/-- Sorting step of the snapshot handler: the stable JS array sort under
`compareIssues`, modelled as stable insertion sort under `feedRel`. -/
def sortIssues (l : List Issue) : List Issue := List.insertionSort feedRel l

/-- Local feed view produced by the issues onSnapshot handler for a snapshot
(already mapped to `{ id, ...data }` records, in arrival order). -/
def localFeedView (snapshot : List Issue) : List Issue := sortIssues snapshot

lemma filter_orderedInsert (k : Int × Int) (x : Issue) :
    ∀ l : List Issue,
      (List.orderedInsert feedRel x l).filter (fun i => issueKey i = k) =
        if issueKey x = k then
          x :: l.filter (fun i => issueKey i = k)
        else
          l.filter (fun i => issueKey i = k)
  | [] => by
    by_cases hx : issueKey x = k <;> simp [List.orderedInsert, hx]
  | y :: ys => by
    by_cases hr : feedRel x y
    · by_cases hx : issueKey x = k <;>
        simp [List.orderedInsert, hr, hx, List.filter_cons]
    · have hkey : issueKey x ≠ issueKey y := fun h => hr (feedRel_of_key_eq h)
      have ih := filter_orderedInsert k x ys
      by_cases hx : issueKey x = k
      · have hy : issueKey y ≠ k := fun h => hkey (hx.trans h.symm)
        simp [List.orderedInsert, hr, hx, hy, List.filter_cons, ih]
      · by_cases hy : issueKey y = k <;>
          simp [List.orderedInsert, hr, hx, hy, List.filter_cons, ih]

lemma filter_sortIssues (k : Int × Int) :
    ∀ l : List Issue,
      (sortIssues l).filter (fun i => issueKey i = k) =
        l.filter (fun i => issueKey i = k)
  | [] => rfl
  | x :: xs => by
    have ih := filter_sortIssues k xs
    unfold sortIssues at ih ⊢
    by_cases hx : issueKey x = k <;>
      simp [List.insertionSort, filter_orderedInsert, hx, ih, List.filter_cons]

/-- C1: for every snapshot of issue records, the local feed view is the input
sequence sorted by upvotes descending (missing treated as 0) then createdAt
descending (missing treated as 0): it is a permutation of the snapshot,
pairwise ordered by that descending lexicographic order, and stable in the
sense that the records sharing any one sort key appear in exactly their
arrival order from the snapshot. -/
theorem feed_view_sorted_stable (snapshot : List Issue) :
    List.Perm (localFeedView snapshot) snapshot ∧
    List.Pairwise feedOrder (localFeedView snapshot) ∧
    ∀ k : Int × Int,
      (localFeedView snapshot).filter (fun i => issueKey i = k) =
        snapshot.filter (fun i => issueKey i = k) := by
  refine ⟨List.perm_insertionSort feedRel snapshot, ?_, fun k => filter_sortIssues k snapshot⟩
  have hs : List.Sorted feedRel (localFeedView snapshot) :=
    List.sorted_insertionSort feedRel snapshot
  exact hs.imp (fun hab => (feedRel_iff _ _).mp hab)

/-- Authenticated identity as used by the handlers (uid plus optional email). -/
structure User where
  uid : String
  email : Option String := none
  deriving DecidableEq

/-- Profile aggregate document; fields are optional because documents read from
the store may lack them (the code defaults them with `|| 0` and `|| []`). -/
structure Profile where
  points : Option Int := none
  badges : Option (List String) := none
  reportedIssues : Option Int := none
  name : Option String := none
  deriving DecidableEq

/-- Zero-state profile used for the initial `userProfile` React state and for
the reset on logout: `{ points: 0, badges: [], reportedIssues: 0 }`. -/
def zeroProfile : Profile :=
  { points := some 0, badges := some [], reportedIssues := some 0 }

/-- Geolocation pair captured by the form; its numeric type is irrelevant to
every claim, so the machine-float coordinates are represented abstractly. -/
structure Coords where
  lat : Int
  lng : Int
  deriving DecidableEq

/-- Issue document as written to (or drafted for) the store: the data fields
without the store-assigned id. Optional `status`, `upvotes`, `createdAt` and
`reporterId` let a draft already carry values for the fields that `addIssue`
overrides by spreading the draft first: `{ ...issue, status: ..., ... }`. -/
structure IssueDoc where
  title : String := ""
  description : String := ""
  location : String := ""
  coordinates : Option Coords := none
  imageUrl : Option String := none
  photoUrl : Option String := none
  videoUrl : Option String := none
  audioUrl : Option String := none
  status : Option String := none
  upvotes : Option Int := none
  createdAt : Option Int := none
  reporterId : Option String := none
  deriving DecidableEq

/-- Payload of the `setDoc(profileRef, {...}, { merge: true })` call in
`addIssue`: two atomic increments plus a wholesale badge list replacement. -/
structure ProfileWrite where
  pointsInc : Int
  reportedIssuesInc : Int
  badges : List String
  deriving DecidableEq

/-- Remote calls the handlers can issue against the store or auth service. -/
inductive RemoteCall where
  | addIssueDoc (d : IssueDoc)
  | profileSet (uid : String) (w : ProfileWrite)
  | deleteIssue (id : String)
  | profileDec (uid : String)
  | incUpvote (id : String)
  | signOutCall
  deriving DecidableEq

/-- Observable steps of a handler, in program order: local React state writes
and remote calls tagged with the outcome of that call in the modelled run. -/
inductive Event where
  | setIssues (l : List Issue)
  | setError (e : Option String)
  | setIsSubmitting (b : Bool)
  | setShowForm (b : Bool)
  | setUser (u : Option User)
  | setUserProfile (p : Profile)
  | setAuthView (v : String)
  | remote (c : RemoteCall) (ok : Bool)
  deriving DecidableEq

/-- Local component state of the App component (the pieces of React state the
claims are about). -/
structure LocalState where
  user : Option User := none
  issues : List Issue := []
  userProfile : Profile := zeroProfile
  error : Option String := none
  isSubmitting : Bool := false
  showForm : Bool := false
  authView : String := "login"
  deriving DecidableEq

/-- Effect of one step on local state; remote calls leave local state as is. -/
def applyEvent (st : LocalState) : Event → LocalState
  | .setIssues l => { st with issues := l }
  | .setError e => { st with error := e }
  | .setIsSubmitting b => { st with isSubmitting := b }
  | .setShowForm b => { st with showForm := b }
  | .setUser u => { st with user := u }
  | .setUserProfile p => { st with userProfile := p }
  | .setAuthView v => { st with authView := v }
  | .remote _ _ => st

/-- Final local state after running the steps of a handler. -/
def runEvents (st : LocalState) (es : List Event) : LocalState :=
  es.foldl applyEvent st

/-- Remote calls issued during a run, in order. -/
def remoteCalls (es : List Event) : List RemoteCall :=
  es.filterMap fun e =>
    match e with
    | .remote c _ => some c
    | _ => none

/-- Outcomes of the two remote calls `handleDelete` may issue. -/
structure DeleteEnv where
  deleteOk : Bool
  profileOk : Bool
  deriving DecidableEq

/-- Error message set by the catch block of `handleDelete`. -/
def deleteErrorMsg : String := "Failed to delete the report. Please refresh and try again."

/-- Steps of `handleDelete(issueId)` (app.js lines 166-186). Guard: return at
once unless a user is present and issueId is truthy. Then: optimistic local
removal, remote delete, and on its success the profile decrement; any thrown
failure reaches the shared catch, which surfaces an error and restores the
saved `originalIssues`. -/
def handleDeleteTrace (st : LocalState) (issueId : Option String) (env : DeleteEnv) :
    List Event :=
  match st.user, issueId with
  | none, _ => []
  | some _, none => []
  | some u, some iid =>
    if iid = "" then []
    else
      Event.setIssues (st.issues.filter (fun i => i.id ≠ iid)) ::
      Event.remote (RemoteCall.deleteIssue iid) env.deleteOk ::
      (if env.deleteOk then
        Event.remote (RemoteCall.profileDec u.uid) env.profileOk ::
          (if env.profileOk then []
           else [Event.setError (some deleteErrorMsg), Event.setIssues st.issues])
      else
        [Event.setError (some deleteErrorMsg), Event.setIssues st.issues])

/-- Steps of `handleUpvote(id)` (app.js lines 188-196): nothing without a
user; otherwise one atomic +1 increment, whose failure is only logged. -/
def handleUpvoteTrace (st : LocalState) (id : String) (ok : Bool) : List Event :=
  match st.user with
  | none => []
  | some _ => [Event.remote (RemoteCall.incUpvote id) ok]

/-- Steps of `handleLogout` (app.js lines 133-139): `await signOut(auth)` is
not guarded by try/catch, so a rejected sign-out aborts the handler before
any of the local state resets run. -/
def handleLogoutTrace (signOutOk : Bool) : List Event :=
  if signOutOk then
    [Event.remote RemoteCall.signOutCall true,
     Event.setUser none,
     Event.setIssues [],
     Event.setUserProfile zeroProfile,
     Event.setAuthView "login"]
  else
    [Event.remote RemoteCall.signOutCall false]

/-- New report count computed by `addIssue` from the LOCAL profile state:
`(userProfile.reportedIssues || 0) + 1`. -/
def newReportCountFor (p : Profile) : Int := p.reportedIssues.getD 0 + 1

/-- First badge push of `addIssue`: append "First Report" when the new count
is at least 1 and the badge is not already present (`includes` is membership). -/
def badgesStep1 (p : Profile) : List String :=
  if newReportCountFor p ≥ 1 ∧ "First Report" ∉ p.badges.getD [] then
    p.badges.getD [] ++ ["First Report"]
  else
    p.badges.getD []

/-- Badge list persisted by `addIssue`: the local badge list after the two
sequential conditional pushes (app.js lines 150-153). -/
def newBadgesFor (p : Profile) : List String :=
  if newReportCountFor p ≥ 5 ∧ "Neighborhood Hero" ∉ badgesStep1 p then
    badgesStep1 p ++ ["Neighborhood Hero"]
  else
    badgesStep1 p

/-- Profile write issued by `addIssue` (app.js line 155): atomic +10 and +1
increments plus wholesale replacement of badges by the recomputed list. -/
def addIssueProfileWrite (p : Profile) : ProfileWrite :=
  { pointsInc := 10, reportedIssuesInc := 1, badges := newBadgesFor p }

/-- Effect of the merge-write on the persisted profile document: increments
apply to the stored values (missing counters behave as 0), badges replaced. -/
def applyProfileWrite (persisted : Profile) (w : ProfileWrite) : Profile :=
  { persisted with
    points := some (persisted.points.getD 0 + w.pointsInc),
    reportedIssues := some (persisted.reportedIssues.getD 0 + w.reportedIssuesInc),
    badges := some w.badges }

/-- Effect of the `updateDoc` in `handleDelete` (app.js lines 176-179) on the
persisted profile: atomic -10 and -1 increments; no other field is touched. -/
def applyDeleteProfileUpdate (p : Profile) : Profile :=
  { p with
    points := some (p.points.getD 0 - 10),
    reportedIssues := some (p.reportedIssues.getD 0 - 1) }

/-- Record written by `addIssue` (app.js line 147): the draft spread first,
then `status`, `upvotes`, `createdAt` and `reporterId` forced, so the literal
fields win over any values already present in the draft. -/
def writtenIssueDoc (issue : IssueDoc) (now : Int) (uid : String) : IssueDoc :=
  { issue with
    status := some "Acknowledged",
    upvotes := some 0,
    createdAt := some now,
    reporterId := some uid }

/-- Outcomes of the two remote calls `addIssue` may issue. -/
structure AddEnv where
  addOk : Bool
  profileOk : Bool
  deriving DecidableEq

/-- Steps of `addIssue(issue)` (app.js lines 142-164): error without a user;
otherwise the issue write, then on its success the profile merge-write, the
shared catch surfacing a generic error on any failure, and the finally block
always resetting the submitting flag. -/
def addIssueTrace (st : LocalState) (issue : IssueDoc) (env : AddEnv) (now : Int) :
    List Event :=
  match st.user with
  | none => [Event.setError (some "You must be signed in.")]
  | some u =>
    Event.setIsSubmitting true ::
    Event.setError none ::
    Event.remote (RemoteCall.addIssueDoc (writtenIssueDoc issue now u.uid)) env.addOk ::
    ((if env.addOk then
        Event.remote (RemoteCall.profileSet u.uid (addIssueProfileWrite st.userProfile))
            env.profileOk ::
          (if env.profileOk then [Event.setShowForm false]
           else [Event.setError (some "Failed to submit issue.")])
      else
        [Event.setError (some "Failed to submit issue.")]) ++
      [Event.setIsSubmitting false])

/-- Media state of the report form: a kind tag (photo, video or audio) and a
data URL; both absent when no media was attached. -/
structure MediaState where
  type : Option String := none
  dataUrl : Option String := none
  deriving DecidableEq

/-- Placeholder image URL used for issues submitted without any media. -/
def noMediaPlaceholder : String :=
  "https://placehold.co/600x400/EEE/31343C?text=No+Media+Provided"

/-- Draft built by the modal submit handler after validation (app.js lines
455-463): base fields, plus the dynamic media field keyed by the media kind,
or the placeholder image when no media data URL is present. In the source a
data URL is only ever stored together with one of the three kinds, so the
fallthrough arm is unreachable. -/
def draftOf (title description location : String) (coordinates : Option Coords)
    (media : MediaState) : IssueDoc :=
  let base : IssueDoc :=
    { title := title, description := description, location := location,
      coordinates := coordinates }
  match media.dataUrl with
  | some url =>
    match media.type with
    | some "photo" => { base with photoUrl := some url }
    | some "video" => { base with videoUrl := some url }
    | some "audio" => { base with audioUrl := some url }
    | _ => base
  | none => { base with imageUrl := some noMediaPlaceholder }

/-- JS `String.prototype.trim`: the string with leading and trailing
whitespace characters removed. -/
def jsTrim (s : String) : String :=
  ⟨((s.data.dropWhile Char.isWhitespace).reverse.dropWhile Char.isWhitespace).reverse⟩

/-- Form error message set when a required field is empty after trimming. -/
def validationErrorMsg : String := "All fields are required."

/-- Modal submit handler (app.js lines 449-465): validation of the three
required fields after whitespace trimming, then draft construction; a
validation failure sets the form error and returns without calling addIssue. -/
def handleSubmitModal (title description location : String) (coordinates : Option Coords)
    (media : MediaState) : Except String IssueDoc :=
  if jsTrim title = "" ∨ jsTrim description = "" ∨ jsTrim location = "" then
    Except.error validationErrorMsg
  else
    Except.ok (draftOf title description location coordinates media)

/-- Full submit flow: the modal handler, and on validation success the steps
of `addIssue` on the produced draft; on validation failure no steps at all. -/
def submitFlow (st : LocalState) (title description location : String)
    (coordinates : Option Coords) (media : MediaState) (env : AddEnv) (now : Int) :
    List Event :=
  match handleSubmitModal title description location coordinates media with
  | Except.error _ => []
  | Except.ok d => addIssueTrace st d env now

/-- Media source and kind selected by IssueCard (app.js lines 576-577): the
URL is the first truthy of imageUrl, photoUrl, videoUrl, while the kind is
video exactly when videoUrl is truthy. -/
def strTruthy : Option String → Bool
  | none => false
  | some s => s ≠ ""

/-- JS short-circuit or on possibly missing strings (empty string is falsy). -/
def jsOrStr (a b : Option String) : Option String := if strTruthy a then a else b

/-- Primary media URL of an issue card: `issue.imageUrl || issue.photoUrl ||
issue.videoUrl`. -/
def mainMediaUrl (i : Issue) : Option String :=
  jsOrStr i.imageUrl (jsOrStr i.photoUrl i.videoUrl)

/-- Primary media kind of an issue card: `issue.videoUrl ? video : photo`. -/
def mainMediaType (i : Issue) : String :=
  if strTruthy i.videoUrl then "video" else "photo"

lemma mem_badgesStep1_of_mem {p : Profile} {b : String} (hb : b ∈ p.badges.getD []) :
    b ∈ badgesStep1 p := by
  unfold badgesStep1
  split_ifs <;> simp [hb]

lemma mem_newBadgesFor_of_mem {p : Profile} {b : String} (hb : b ∈ p.badges.getD []) :
    b ∈ newBadgesFor p := by
  unfold newBadgesFor
  split_ifs <;> simp [mem_badgesStep1_of_mem hb]

lemma firstReport_mem_newBadgesFor {p : Profile} (h : newReportCountFor p ≥ 1) :
    "First Report" ∈ newBadgesFor p := by
  have h1 : "First Report" ∈ badgesStep1 p := by
    unfold badgesStep1
    split_ifs with hc
    · simp
    · rcases not_and_or.mp hc with h2 | h2
      · exact absurd h h2
      · simpa using not_not.mp h2
  unfold newBadgesFor
  split_ifs <;> simp [h1]

lemma hero_mem_newBadgesFor {p : Profile} (h : newReportCountFor p ≥ 5) :
    "Neighborhood Hero" ∈ newBadgesFor p := by
  unfold newBadgesFor
  split_ifs with hc
  · simp
  · rcases not_and_or.mp hc with h2 | h2
    · exact absurd h h2
    · exact not_not.mp h2

/-- C2 counterexample: with the remote delete succeeding and the profile
decrement failing, the shared catch of `handleDelete` restores the saved
pre-delete list, so the issue record does NOT stay removed from the local
feed view — contradicting the claim that the decrement failure is not rolled
back locally. -/
theorem delete_profile_fail_restores_view :
    (runEvents
        { user := some { uid := "u1" }, issues := [{ id := "i1", reporterId := some "u1" }] }
        (handleDeleteTrace
          { user := some { uid := "u1" }, issues := [{ id := "i1", reporterId := some "u1" }] }
          (some "i1") { deleteOk := true, profileOk := false })).issues
      = [{ id := "i1", reporterId := some "u1" }] := by
  decide

/-- C2 (amended): the companion profile decrement is issued only after the
remote delete succeeds (on delete failure the decrement is never issued; on
success it is the second remote call), but a failure of the decrement IS
rolled back locally: the catch restores the pre-delete feed view and surfaces
the delete error message, while the already-performed remote delete is not
undone. -/
theorem delete_profile_decrement_semantics (st : LocalState) (u : User) (iid : String)
    (env : DeleteEnv) (hu : st.user = some u) (hid : iid ≠ "") :
    (env.deleteOk = false →
      remoteCalls (handleDeleteTrace st (some iid) env) = [RemoteCall.deleteIssue iid]) ∧
    (env.deleteOk = true →
      remoteCalls (handleDeleteTrace st (some iid) env) =
        [RemoteCall.deleteIssue iid, RemoteCall.profileDec u.uid]) ∧
    (env.deleteOk = true → env.profileOk = false →
      (runEvents st (handleDeleteTrace st (some iid) env)).issues = st.issues ∧
      (runEvents st (handleDeleteTrace st (some iid) env)).error = some deleteErrorMsg) := by
  rcases env with ⟨dOk, pOk⟩
  cases dOk <;> cases pOk <;>
    simp [handleDeleteTrace, hu, hid, remoteCalls, runEvents, applyEvent]

/-- Witness for the amended C2 theorem at a concrete state and outcome. -/
theorem delete_profile_decrement_semantics_witness :
    remoteCalls (handleDeleteTrace { user := some { uid := "u1" }, issues := [] } (some "i1")
        { deleteOk := false, profileOk := true }) = [RemoteCall.deleteIssue "i1"] :=
  (delete_profile_decrement_semantics { user := some { uid := "u1" }, issues := [] }
      { uid := "u1" } "i1" { deleteOk := false, profileOk := true } rfl (by decide)).1 rfl

/-- C3: the optimistic removal of the record from the local feed view is the
first step of `handleDelete` and precedes the remote delete call; and if the
remote delete fails, the final local feed view is exactly the pre-delete list
(so the record is back in its original position) and the delete error message
is surfaced. -/
theorem delete_optimistic_and_rollback (st : LocalState) (u : User) (iid : String)
    (env : DeleteEnv) (hu : st.user = some u) (hid : iid ≠ "") :
    (handleDeleteTrace st (some iid) env).take 2 =
      [Event.setIssues (st.issues.filter (fun i => i.id ≠ iid)),
       Event.remote (RemoteCall.deleteIssue iid) env.deleteOk] ∧
    (env.deleteOk = false →
      (runEvents st (handleDeleteTrace st (some iid) env)).issues = st.issues ∧
      (runEvents st (handleDeleteTrace st (some iid) env)).error = some deleteErrorMsg) := by
  rcases env with ⟨dOk, pOk⟩
  cases dOk <;> cases pOk <;>
    simp [handleDeleteTrace, hu, hid, runEvents, applyEvent]

/-- Witness for the C3 theorem at a concrete state with a failing delete. -/
theorem delete_optimistic_and_rollback_witness :
    (runEvents { user := some { uid := "u2" }, issues := [{ id := "i2" }] }
        (handleDeleteTrace { user := some { uid := "u2" }, issues := [{ id := "i2" }] }
          (some "i2") { deleteOk := false, profileOk := true })).issues = [{ id := "i2" }] :=
  ((delete_optimistic_and_rollback
      { user := some { uid := "u2" }, issues := [{ id := "i2" }] }
      { uid := "u2" } "i2" { deleteOk := false, profileOk := true } rfl (by decide)).2 rfl).1

/-- C7 counterexample: when the remote sign-out call fails, `handleLogout`
aborts at the unguarded `await signOut(auth)` and none of the local resets
run — the identity and the feed are NOT cleared, contradicting the claim that
local state is cleared regardless of the remote outcome. -/
theorem logout_remote_failure_keeps_state :
    (runEvents { user := some { uid := "u3" }, issues := [{ id := "i3" }] }
        (handleLogoutTrace false)).user = some { uid := "u3" } ∧
    (runEvents { user := some { uid := "u3" }, issues := [{ id := "i3" }] }
        (handleLogoutTrace false)).issues = [{ id := "i3" }] := by
  decide

/-- C7 (amended): when the remote sign-out call succeeds, all dependent local
state is cleared (identity removed, feed emptied, profile reset to the
zero-state aggregate, auth view reset); when the remote call fails, the
handler aborts and the local state is left completely unchanged. -/
theorem logout_clears_state_iff_remote_ok (st : LocalState) :
    (runEvents st (handleLogoutTrace true)).user = none ∧
    (runEvents st (handleLogoutTrace true)).issues = [] ∧
    (runEvents st (handleLogoutTrace true)).userProfile = zeroProfile ∧
    (runEvents st (handleLogoutTrace true)).authView = "login" ∧
    runEvents st (handleLogoutTrace false) = st := by
  simp [runEvents, handleLogoutTrace, applyEvent]

/-- C10: without an authenticated identity, upvote and delete perform no
steps at all — no remote call, no feed change, no surfaced error — and delete
with a missing issue id likewise performs nothing even with a user present. -/
theorem unauthenticated_ops_noop (st st2 : LocalState) (id : String) (iid : Option String)
    (env : DeleteEnv) (ok : Bool) (h : st.user = none) :
    handleUpvoteTrace st id ok = [] ∧
    runEvents st (handleUpvoteTrace st id ok) = st ∧
    handleDeleteTrace st iid env = [] ∧
    runEvents st (handleDeleteTrace st iid env) = st ∧
    handleDeleteTrace st2 none env = [] ∧
    runEvents st2 (handleDeleteTrace st2 none env) = st2 := by
  cases hst2 : st2.user <;>
    simp [handleUpvoteTrace, handleDeleteTrace, h, hst2, runEvents]

/-- Witness for the C10 theorem at concrete states. -/
theorem unauthenticated_ops_noop_witness :
    handleUpvoteTrace { user := none } "i9" true = [] ∧
    handleDeleteTrace { user := some { uid := "u9" } } none
      { deleteOk := true, profileOk := true } = [] :=
  ⟨(unauthenticated_ops_noop { user := none } { user := some { uid := "u9" } } "i9" none
      { deleteOk := true, profileOk := true } true rfl).1,
   (unauthenticated_ops_noop { user := none } { user := some { uid := "u9" } } "i9" none
      { deleteOk := true, profileOk := true } true rfl).2.2.2.2.1⟩

/-- C4 counterexample: two profiles with the same post-increment report count
(both 1) receive different persisted badge sets, because the code unions the
previous badge list with the newly earned threshold badges instead of
recomputing the set from the count alone — so the persisted badge set is not
a pure function of the post-increment reportedIssues count. -/
theorem badges_not_pure_function_of_count :
    newReportCountFor { points := some 0, badges := some [], reportedIssues := some 0 } =
      newReportCountFor
        { points := some 0, badges := some ["Neighborhood Hero"], reportedIssues := some 0 } ∧
    (applyProfileWrite { points := some 0, badges := some [], reportedIssues := some 0 }
        (addIssueProfileWrite
          { points := some 0, badges := some [], reportedIssues := some 0 })).badges ≠
      (applyProfileWrite
          { points := some 0, badges := some ["Neighborhood Hero"], reportedIssues := some 0 }
          (addIssueProfileWrite
            { points := some 0, badges := some ["Neighborhood Hero"],
              reportedIssues := some 0 })).badges := by
  decide

/-- C4 (amended): on an accepted report the profile write increments the
persisted points by 10 and reportedIssues by 1, and persists as badge set the
prior (local) badge list extended with each fixed-threshold badge earned at
the post-increment count ("First Report" at count at least 1, "Neighborhood
Hero" at count at least 5) that is not already present — a monotone union, a
function of the prior badge list together with the count rather than of the
count alone; in particular, for an identity whose persisted and local
reportedIssues were 0, the updated aggregate has reportedIssues = 1, points
increased by 10, and badges containing "First Report". -/
theorem addIssue_profile_update (persisted localP : Profile) :
    (applyProfileWrite persisted (addIssueProfileWrite localP)).points =
      some (persisted.points.getD 0 + 10) ∧
    (applyProfileWrite persisted (addIssueProfileWrite localP)).reportedIssues =
      some (persisted.reportedIssues.getD 0 + 1) ∧
    (applyProfileWrite persisted (addIssueProfileWrite localP)).badges =
      some (newBadgesFor localP) ∧
    (∀ b ∈ localP.badges.getD [], b ∈ newBadgesFor localP) ∧
    (newReportCountFor localP ≥ 1 → "First Report" ∈ newBadgesFor localP) ∧
    (newReportCountFor localP ≥ 5 → "Neighborhood Hero" ∈ newBadgesFor localP) ∧
    (persisted.reportedIssues = some 0 → localP.reportedIssues = some 0 →
      (applyProfileWrite persisted (addIssueProfileWrite localP)).reportedIssues = some 1 ∧
      (applyProfileWrite persisted (addIssueProfileWrite localP)).points =
        some (persisted.points.getD 0 + 10) ∧
      "First Report" ∈
        ((applyProfileWrite persisted (addIssueProfileWrite localP)).badges.getD [])) := by
  refine ⟨rfl, rfl, rfl, fun b hb => mem_newBadgesFor_of_mem hb,
    fun h => firstReport_mem_newBadgesFor h, fun h => hero_mem_newBadgesFor h,
    fun hp hl => ⟨?_, rfl, ?_⟩⟩
  · simp [applyProfileWrite, addIssueProfileWrite, hp]
  · have : newReportCountFor localP ≥ 1 := by
      unfold newReportCountFor
      rw [hl]
      decide
    simpa [applyProfileWrite, addIssueProfileWrite] using firstReport_mem_newBadgesFor this

/-- Witness for the amended C4 theorem at the zero-state profile. -/
theorem addIssue_profile_update_witness :
    (applyProfileWrite zeroProfile (addIssueProfileWrite zeroProfile)).reportedIssues =
      some 1 ∧
    "First Report" ∈
      ((applyProfileWrite zeroProfile (addIssueProfileWrite zeroProfile)).badges.getD []) :=
  ⟨((addIssue_profile_update zeroProfile zeroProfile).2.2.2.2.2.2 rfl rfl).1,
   ((addIssue_profile_update zeroProfile zeroProfile).2.2.2.2.2.2 rfl rfl).2.2⟩

/-- C5: submitting with any of title, description or location empty after
whitespace trimming yields exactly the validation error and produces no steps
at all (in particular no remote write), and any run that does issue a remote
call had all three fields non-empty after trimming. -/
theorem submit_requires_nonempty_fields (st : LocalState) (t d l : String)
    (c : Option Coords) (m : MediaState) (env : AddEnv) (now : Int) :
    ((jsTrim t = "" ∨ jsTrim d = "" ∨ jsTrim l = "") ↔
      handleSubmitModal t d l c m = Except.error validationErrorMsg) ∧
    ((jsTrim t = "" ∨ jsTrim d = "" ∨ jsTrim l = "") →
      submitFlow st t d l c m env now = []) ∧
    (remoteCalls (submitFlow st t d l c m env now) ≠ [] →
      jsTrim t ≠ "" ∧ jsTrim d ≠ "" ∧ jsTrim l ≠ "") := by
  by_cases h : jsTrim t = "" ∨ jsTrim d = "" ∨ jsTrim l = ""
  · refine ⟨by simp [handleSubmitModal, h], fun _ => by simp [submitFlow, handleSubmitModal, h],
      fun hc => absurd ?_ hc⟩
    simp [submitFlow, handleSubmitModal, h, remoteCalls]
  · exact ⟨by simp [handleSubmitModal, h],
      fun hempty => absurd hempty h,
      fun _ => ⟨fun ht => h (Or.inl ht), fun hd => h (Or.inr (Or.inl hd)),
        fun hl => h (Or.inr (Or.inr hl))⟩⟩

/-- Witness for the C5 theorem: an empty title yields the validation error
and an empty run. -/
theorem submit_requires_nonempty_fields_witness :
    handleSubmitModal "" "desc" "loc" none {} = Except.error validationErrorMsg ∧
    submitFlow { user := none } "" "desc" "loc" none {}
      { addOk := true, profileOk := true } 0 = [] :=
  ⟨(submit_requires_nonempty_fields { user := none } "" "desc" "loc" none {}
      { addOk := true, profileOk := true } 0).1.mp (Or.inl (by decide)),
   (submit_requires_nonempty_fields { user := none } "" "desc" "loc" none {}
      { addOk := true, profileOk := true } 0).2.1 (Or.inl (by decide))⟩

/-- C6: for every draft accepted by submit — including a draft already
carrying values for these fields — the record written to the store has status
"Acknowledged", upvotes 0, createdAt equal to the submission time and
reporterId equal to the calling identity. -/
theorem written_record_fields (issue : IssueDoc) (now : Int) (uid : String) :
    (writtenIssueDoc issue now uid).status = some "Acknowledged" ∧
    (writtenIssueDoc issue now uid).upvotes = some 0 ∧
    (writtenIssueDoc issue now uid).createdAt = some now ∧
    (writtenIssueDoc issue now uid).reporterId = some uid :=
  ⟨rfl, rfl, rfl, rfl⟩

/-- C8: the delete-path profile update decrements the persisted points by 10
and reportedIssues by 1 via the increment mechanism and leaves the badges
field untouched; and the only other badge-writing operation (the submit-path
write) only ever extends the badge list it is computed from, so no operation
removes a badge. -/
theorem delete_profile_badges_frame (p q : Profile) :
    (applyDeleteProfileUpdate p).points = some (p.points.getD 0 - 10) ∧
    (applyDeleteProfileUpdate p).reportedIssues = some (p.reportedIssues.getD 0 - 1) ∧
    (applyDeleteProfileUpdate p).badges = p.badges ∧
    (∀ b ∈ q.badges.getD [], b ∈ newBadgesFor q) :=
  ⟨rfl, rfl, rfl, fun _ hb => mem_newBadgesFor_of_mem hb⟩

/-- Witness for the C8 theorem at a concrete profile and badge. -/
theorem delete_profile_badges_frame_witness :
    "First Report" ∈ newBadgesFor { badges := some ["First Report"] } :=
  (delete_profile_badges_frame zeroProfile { badges := some ["First Report"] }).2.2.2
    "First Report" (by decide)

/-- C9, evaluated at the failing input: for an issue carrying both a photo
reference and a video reference, IssueCard selects the PHOTO URL as the
primary media source (imageUrl and photoUrl precede videoUrl in the
short-circuit chain) while computing the primary media kind as video, so the
video reference is not the primary displayed media and the two selections
disagree. -/
theorem media_precedence_mismatch :
    mainMediaUrl { id := "i0", photoUrl := some "photo.png", videoUrl := some "video.mp4" } =
      some "photo.png" ∧
    mainMediaType { id := "i0", photoUrl := some "photo.png", videoUrl := some "video.mp4" } =
      "video" ∧
    mainMediaUrl { id := "i0", photoUrl := some "photo.png", videoUrl := some "video.mp4" } ≠
      some "video.mp4" := by
  decide

end CivicSync
